import Mathlib

/-!
Shallow embedding of the hcloud docker-machine driver
(src/drivers/hcloud/hcloud.go) and proofs about its lifecycle
operations.

Modelling conventions:
- Go strings are Lean `String`; Go `int` is Lean `Int` (server IDs are
  only stored and compared, never subjected to arithmetic).
- A Go pointer that may be nil is `Option _`; dereferencing a nil
  pointer is modelled by the `GoResult.crash` outcome (a Go runtime
  panic), distinct from an ordinary returned error.
- A Go function returning `(T, error)` is modelled as returning
  `T × Option GoError` (with `none` for a nil error), wrapped in
  `GoResult` when a nil-pointer dereference is reachable.
- The provider's HTTP client (hetznercloud/hcloud-go) is an opaque RPC
  boundary: its responses are modelled by a `Provider` structure of
  response functions, one per API call the driver makes through
  `d.hcloud`.  Each driver method takes the `Provider` as an explicit
  argument, standing for the network side reached through the stored
  client handle.
- Methods with a pointer receiver are state-passing: they return the
  (possibly updated) `Driver` alongside their Go return values.
-/

namespace Hcloud

/-- Terminal outcome of running a Go function body: a normal return
carrying the function's return values, or a runtime panic (here always
a nil-pointer dereference). -/
inductive GoResult (α : Type) where
  | ok (val : α)
  | crash
deriving DecidableEq, Repr

/-- A Go `error` value: either a structured hcloud API error carrying a
code (hcloud.Error), or any other error (e.g. from fmt.Errorf /
errors.New). `none : Option GoError` stands for a nil error. -/
inductive GoError where
  | hcloudError (code : String) (message : String)
  | goError (message : String)
deriving DecidableEq, Repr

/-- hcloud.ErrorCodeNotFound: the structured error code the provider
uses for a resource that does not exist. -/
def ErrorCodeNotFound : String := "not_found"

/-- hcloud.IsError(err, code): true iff the error is a structured
hcloud API error with the given code. -/
def hcloudIsError (e : GoError) (code : String) : Bool :=
  match e with
  | .hcloudError c _ => c == code
  | .goError _ => false

/-- Modelled from the spec: the abstract lifecycle state enumeration
of the host-management tool (libmachine state.State), the closed set
\x7bRunning, Stopped, Starting, Stopping, Error\x7d used by this driver. -/
inductive State where
  | Running
  | Stopped
  | Starting
  | Stopping
  | Error
deriving DecidableEq, Repr

/-- hcloud.ServerStatusRunning. -/
def ServerStatusRunning : String := "running"
/-- hcloud.ServerStatusOff. -/
def ServerStatusOff : String := "off"
/-- hcloud.ServerStatusStopping : String. -/
def ServerStatusStopping : String := "stopping"
/-- hcloud.ServerStatusStarting. -/
def ServerStatusStarting : String := "starting"
/-- hcloud.ServerStatusInitializing. -/
def ServerStatusInitializing : String := "initializing"

/-- hcloud.ServerType (opaque resource descriptor; only its identity
matters to the driver, which passes it through to ServerCreateOpts). -/
structure ServerType where
  Name : String
deriving DecidableEq, Repr

/-- hcloud.Image (opaque resource descriptor). -/
structure Image where
  Name : String
deriving DecidableEq, Repr

/-- hcloud.Datacenter (opaque resource descriptor). -/
structure Datacenter where
  Name : String
deriving DecidableEq, Repr

/-- hcloud.Location (opaque resource descriptor). -/
structure Location where
  Name : String
deriving DecidableEq, Repr

/-- hcloud.ServerPublicNetIPv4; the net.IP field is modelled by its
String() rendering, which is all the driver uses. -/
structure ServerPublicNetIPv4 where
  IP : String
deriving DecidableEq, Repr

/-- hcloud.ServerPublicNet (value field of Server). -/
structure ServerPublicNet where
  IPv4 : ServerPublicNetIPv4
deriving DecidableEq, Repr

/-- hcloud.Server: the fields the driver reads. -/
structure Server where
  ID : Int
  Status : String
  PublicNet : ServerPublicNet
deriving DecidableEq, Repr

/-- hcloud.Action: the driver only reads its Command label. -/
structure Action where
  Command : String
deriving DecidableEq, Repr

/-- hcloud.ServerCreateOpts as assembled by Create: resource pointers
are Options because the Get calls can return nil. -/
structure ServerCreateOpts where
  Name : String
  ServerType : Option ServerType
  Image : Option Image
  Datacenter : Option Datacenter := none
  Location : Option Location := none
deriving DecidableEq, Repr

/-- hcloud.ServerCreateResult: both fields are pointers in Go and may
be nil (in particular when the create call itself failed and the
zero-valued result is returned alongside the error). -/
structure ServerCreateResult where
  Server : Option Server
  Action : Option Action
deriving DecidableEq, Repr

/-- The opaque RPC boundary: one response function per provider API
call the driver issues through its stored client handle.  Each models
the corresponding hcloud-go call, returning the (possibly nil) result
pointer and the (possibly nil) error, except Delete (result unused by
the driver) and WatchProgress (the driver consumes only the terminal
error-or-nil signal from the returned channel). -/
structure Provider where
  serverTypeGet : String → Option ServerType × Option GoError
  imageGet : String → Option Image × Option GoError
  datacenterGet : String → Option Datacenter × Option GoError
  locationGet : String → Option Location × Option GoError
  serverCreate : ServerCreateOpts → ServerCreateResult × Option GoError
  serverGetByID : Int → Option Server × Option GoError
  serverPoweron : Server → Option Action × Option GoError
  serverPoweroff : Server → Option Action × Option GoError
  serverShutdown : Server → Option Action × Option GoError
  serverReboot : Server → Option Action × Option GoError
  serverDelete : Server → Option GoError
  watchProgress : Action → Option GoError

/-- Modelled from the spec: the host framework's drivers.BaseDriver
fields this driver uses (machine name, store path, cached IP address).
An empty IPAddress stands for the unset zero value. -/
structure BaseDriver where
  MachineName : String
  StorePath : String
  IPAddress : String
deriving DecidableEq, Repr

/-- The configuration carried by the constructed hcloud.Client handle:
the credential token and the application identity/version tag attached
by hcloud.WithApplication.  The network behaviour reached through the
handle is the separate `Provider` oracle. -/
structure HcloudClientCfg where
  token : String
  appName : String
  appVersion : String
deriving DecidableEq, Repr

/-- Modelled from the spec: the host tool's version string
(github.com/docker/machine/version.Version) used only for
provider-side telemetry tagging; its concrete value is external to
this repository and irrelevant to every claim. -/
def machineVersion : String := "unknown"

/-- hcloud.NewClient(hcloud.WithToken(token),
hcloud.WithApplication("docker-machine", version.Version)): constructs
the authenticated client handle configuration. -/
def hcloudNewClient (token : String) : HcloudClientCfg :=
  { token := token, appName := "docker-machine", appVersion := machineVersion }

/-- The driver struct: embedded BaseDriver, the provider-assigned
server id (0 = Go zero value, unset), the provisioning parameters, and
the client handle (`none` = nil until SetConfigFromFlags constructs
it). -/
structure Driver where
  base : BaseDriver
  serverId : Int
  Image : String
  Location : String
  Datacenter : String
  ServerType : String
  hcloud : Option HcloudClientCfg
deriving DecidableEq, Repr

/-- driverName constant. -/
def driverName : String := "hcloud"
/-- defaultImage constant. -/
def defaultImage : String := "ubuntu-18.04"
/-- defaultServerType constant. -/
def defaultServerType : String := "cx11"

/-- NewDriver(hostName, storePath): fresh driver with Go zero values
for all other fields. -/
def NewDriver (hostName storePath : String) : Driver :=
  { base := { MachineName := hostName, StorePath := storePath, IPAddress := "" },
    serverId := 0, Image := "", Location := "", Datacenter := "",
    ServerType := "", hcloud := none }

/-- DriverName(): returns the driver's name. -/
def Driver.DriverName (_ : Driver) : String := driverName

/-- drivers.DriverOptions as used here: flags.String(name) lookup. -/
structure DriverOptions where
  string : String → String

/-- Modelled from the spec: the host framework's BaseDriver.GetIP —
returns the cached network identity, failing when it is unset. -/
def Driver.GetIP (d : Driver) : String × Option GoError :=
  if d.base.IPAddress = "" then ("", some (.goError "IP address is not set"))
  else (d.base.IPAddress, none)

/-- GetSSHHostname(): returns d.GetIP() directly. -/
def Driver.GetSSHHostname (d : Driver) : String × Option GoError :=
  d.GetIP

/-- Modelled from the spec: drivers.ErrHostIsNotRunning, the error the
host framework's generic must-be-running guard returns when the
machine state is not Running. -/
def errHostIsNotRunning : GoError := .goError "Host is not running"

/-- GetState(): looks the server up by the stored id; on lookup error
returns (state.Error, err); otherwise maps the provider status through
the switch.  The ServerStatusStarting case has an empty body in the
source switch (no fallthrough in Go), so control exits the switch and
reaches the final `return state.Running, nil`; a nil server with a nil
error makes `server.Status` a nil dereference. -/
def Driver.GetState (p : Provider) (d : Driver) :
    GoResult (Driver × State × Option GoError) :=
  match d.hcloud with
  | none => .crash
  | some _ =>
    match p.serverGetByID d.serverId with
    | (_, some e) => .ok (d, State.Error, some e)
    | (none, none) => .crash
    | (some server, none) =>
      if server.Status = ServerStatusRunning then .ok (d, State.Running, none)
      else if server.Status = ServerStatusOff then .ok (d, State.Stopped, none)
      else if server.Status = ServerStatusStopping then .ok (d, State.Stopping, none)
      else if server.Status = ServerStatusStarting then
        -- empty case body: falls out of the switch to the final return
        .ok (d, State.Running, none)
      else if server.Status = ServerStatusInitializing then .ok (d, State.Starting, none)
      else .ok (d, State.Running, none)

/-- Modelled from the spec: the host framework's generic
drivers.MustBeRunning guard — queries the driver state, propagates a
lookup error, and rejects any state other than Running. -/
def drivers.MustBeRunning (p : Provider) (d : Driver) : GoResult (Option GoError) :=
  match Driver.GetState p d with
  | .crash => .crash
  | .ok (_, _, some e) => .ok (some e)
  | .ok (_, st, none) =>
    if st = State.Running then .ok none else .ok (some errHostIsNotRunning)

/-- Modelled from the spec: net.JoinHostPort — joins host and port
with a colon, bracketing hosts that contain a colon. -/
def netJoinHostPort (host port : String) : String :=
  if host.data.contains (Char.ofNat 58) then "[" ++ host ++ "]:" ++ port
  else host ++ ":" ++ port

/-- GetURL(): applies the must-be-running guard, then builds
tcp://host:2376 from d.GetIP(). -/
def Driver.GetURL (p : Provider) (d : Driver) :
    GoResult (Driver × String × Option GoError) :=
  match drivers.MustBeRunning p d with
  | .crash => .crash
  | .ok (some e) => .ok (d, "", some e)
  | .ok none =>
    match d.GetIP with
    | (_, some e) => .ok (d, "", some e)
    | (ip, none) => .ok (d, "tcp://" ++ netJoinHostPort ip "2376", none)

/-- waitOnAction(action): dereferences action.Command for the log
line (nil action crashes), then consumes the terminal signal of
WatchProgress and returns it (nil on success, the provider error on
failure). -/
def Driver.waitOnAction (p : Provider) (action : Option Action) :
    GoResult (Option GoError) :=
  match action with
  | none => .crash
  | some a => .ok (p.watchProgress a)

/-- Lines 91-118 of Create: resolve the server type and image by their
identifiers, then assemble ServerCreateOpts; when a datacenter
(resp. location) is configured, the lookup is issued with d.Image as
the key — exactly as in the source.  Returns the first lookup error,
else the assembled opts. -/
def Driver.createOpts (p : Provider) (d : Driver) :
    Except GoError ServerCreateOpts := do
  let serverType ← match p.serverTypeGet d.ServerType with
    | (_, some e) => .error e
    | (st, none) => .ok st
  let image ← match p.imageGet d.Image with
    | (_, some e) => .error e
    | (im, none) => .ok im
  let opts : ServerCreateOpts :=
    { Name := d.base.MachineName, ServerType := serverType, Image := image }
  let opts ← if d.Datacenter ≠ "" then
      match p.datacenterGet d.Image with
      | (_, some e) => .error e
      | (datacenter, none) => pure { opts with Datacenter := datacenter }
    else pure opts
  let opts ← if d.Location ≠ "" then
      match p.locationGet d.Image with
      | (_, some e) => .error e
      | (location, none) => pure { opts with Location := location }
    else pure opts
  return opts

/-- Create(): resolve resources (Driver.createOpts), issue the server
creation call — whose error return is assigned but never examined in
the source — wait on the returned action discarding the wait's result,
then unconditionally bind serverId and IPAddress from the response and
return nil.  A nil Action or nil Server in the response is a nil
dereference. -/
def Driver.Create (p : Provider) (d : Driver) :
    GoResult (Driver × Option GoError) :=
  match d.hcloud with
  | none => .crash
  | some _ =>
    match Driver.createOpts p d with
    | .error e => .ok (d, some e)
    | .ok opts =>
      match p.serverCreate opts with
      | (resp, _) =>
        -- the error component of the creation call is dropped here
        match Driver.waitOnAction p resp.Action with
        | .crash => .crash
        | .ok _ =>
          -- the wait's outcome is discarded
          match resp.Server with
          | none => .crash
          | some s =>
            .ok ({ d with serverId := s.ID,
                          base := { d.base with IPAddress := s.PublicNet.IPv4.IP } },
                 none)

/-- Kill(): fetch the server by id, issue Poweroff, wait. -/
def Driver.Kill (p : Provider) (d : Driver) :
    GoResult (Driver × Option GoError) :=
  match d.hcloud with
  | none => .crash
  | some _ =>
    match p.serverGetByID d.serverId with
    | (_, some e) => .ok (d, some e)
    | (none, none) => .crash
    | (some server, none) =>
      match p.serverPoweroff server with
      | (_, some e) => .ok (d, some e)
      | (action, none) =>
        match Driver.waitOnAction p action with
        | .crash => .crash
        | .ok r => .ok (d, r)

/-- Remove(): fetch the server by id; a not_found structured error is
logged and downgraded to success; any other lookup error is returned;
on success issue Delete and return its error, with no waiting. -/
def Driver.Remove (p : Provider) (d : Driver) :
    GoResult (Driver × Option GoError) :=
  match d.hcloud with
  | none => .crash
  | some _ =>
    match p.serverGetByID d.serverId with
    | (_, some e) =>
      if hcloudIsError e ErrorCodeNotFound then .ok (d, none)
      else .ok (d, some e)
    | (none, none) => .crash
    | (some server, none) => .ok (d, p.serverDelete server)

/-- Restart(): fetch the server by id, issue Reboot, wait. -/
def Driver.Restart (p : Provider) (d : Driver) :
    GoResult (Driver × Option GoError) :=
  match d.hcloud with
  | none => .crash
  | some _ =>
    match p.serverGetByID d.serverId with
    | (_, some e) => .ok (d, some e)
    | (none, none) => .crash
    | (some server, none) =>
      match p.serverReboot server with
      | (_, some e) => .ok (d, some e)
      | (action, none) =>
        match Driver.waitOnAction p action with
        | .crash => .crash
        | .ok r => .ok (d, r)

/-- SetConfigFromFlags(flags): reject an empty token, image or server
type with an error (the image is bound before the server-type check,
as in the source); otherwise bind the remaining parameters and
construct the authenticated client handle. -/
def Driver.SetConfigFromFlags (d : Driver) (flags : DriverOptions) :
    Driver × Option GoError :=
  let token := flags.string "hcloud-token"
  if token = "" then (d, some (.goError "--hcloud-token option is required"))
  else
    let image := flags.string "hcloud-image"
    if image = "" then (d, some (.goError "--hcloud-image option is required"))
    else
      let d := { d with Image := image }
      let serverType := flags.string "hcloud-type"
      if serverType = "" then (d, some (.goError "--hcloud-type option is required"))
      else
        ({ d with ServerType := serverType,
                  Datacenter := flags.string "hcloud-datacenter",
                  Location := flags.string "hcloud-location",
                  hcloud := some (hcloudNewClient token) }, none)

/-- Start(): fetch the server by id, issue Poweron, wait. -/
def Driver.Start (p : Provider) (d : Driver) :
    GoResult (Driver × Option GoError) :=
  match d.hcloud with
  | none => .crash
  | some _ =>
    match p.serverGetByID d.serverId with
    | (_, some e) => .ok (d, some e)
    | (none, none) => .crash
    | (some server, none) =>
      match p.serverPoweron server with
      | (_, some e) => .ok (d, some e)
      | (action, none) =>
        match Driver.waitOnAction p action with
        | .crash => .crash
        | .ok r => .ok (d, r)

/-- Stop(): fetch the server by id, issue Shutdown, wait. -/
def Driver.Stop (p : Provider) (d : Driver) :
    GoResult (Driver × Option GoError) :=
  match d.hcloud with
  | none => .crash
  | some _ =>
    match p.serverGetByID d.serverId with
    | (_, some e) => .ok (d, some e)
    | (none, none) => .crash
    | (some server, none) =>
      match p.serverShutdown server with
      | (_, some e) => .ok (d, some e)
      | (action, none) =>
        match Driver.waitOnAction p action with
        | .crash => .crash
        | .ok r => .ok (d, r)

/-! Concrete fixtures used by the witness theorems. -/

/-- A generic transport-level failure. -/
def errBoom : GoError := .goError "transport failure"

/-- A provider whose every call fails with a transport error; witness
providers override the calls they need. -/
def stubProvider : Provider :=
  { serverTypeGet := fun _ => (none, some errBoom),
    imageGet := fun _ => (none, some errBoom),
    datacenterGet := fun _ => (none, some errBoom),
    locationGet := fun _ => (none, some errBoom),
    serverCreate := fun _ => ({ Server := none, Action := none }, some errBoom),
    serverGetByID := fun _ => (none, some errBoom),
    serverPoweron := fun _ => (none, some errBoom),
    serverPoweroff := fun _ => (none, some errBoom),
    serverShutdown := fun _ => (none, some errBoom),
    serverReboot := fun _ => (none, some errBoom),
    serverDelete := fun _ => some errBoom,
    watchProgress := fun _ => some errBoom }

/-- The client configuration produced by configuring with token "T". -/
def cfgT : HcloudClientCfg := hcloudNewClient "T"

/-- A driver as it stands after a successful create: configured client,
server id 42, cached address 203.0.113.9. -/
def sampleDriver : Driver :=
  { base := { MachineName := "m", StorePath := "s", IPAddress := "203.0.113.9" },
    serverId := 42, Image := "ubuntu-18.04", Location := "", Datacenter := "",
    ServerType := "cx11", hcloud := some cfgT }

/-- A server record for the fixtures. -/
def sampleServer : Server :=
  { ID := 42, Status := ServerStatusRunning,
    PublicNet := { IPv4 := { IP := "203.0.113.9" } } }

/-! Claim theorems. -/

/-- C2: given a successful server lookup, GetState maps provider
statuses per the table Running→Running, Off→Stopped, Stopping→Stopping,
Initializing→Starting; the provider status "starting" is matched but
its empty case body falls out of the switch, so it and every status
outside the table yield Running; the result is never the Error state. -/
theorem getState_status_table (p : Provider) (d : Driver)
    (cfg : HcloudClientCfg) (s : Server)
    (hcfg : d.hcloud = some cfg)
    (hlookup : p.serverGetByID d.serverId = (some s, none)) :
    Driver.GetState p d =
      .ok (d,
        (if s.Status = ServerStatusRunning then State.Running
         else if s.Status = ServerStatusOff then State.Stopped
         else if s.Status = ServerStatusStopping then State.Stopping
         else if s.Status = ServerStatusStarting then State.Running
         else if s.Status = ServerStatusInitializing then State.Starting
         else State.Running), none)
    ∧ ∀ d2 st e, Driver.GetState p d = .ok (d2, st, e) → st ≠ State.Error := by
  have h1 : Driver.GetState p d =
      .ok (d,
        (if s.Status = ServerStatusRunning then State.Running
         else if s.Status = ServerStatusOff then State.Stopped
         else if s.Status = ServerStatusStopping then State.Stopping
         else if s.Status = ServerStatusStarting then State.Running
         else if s.Status = ServerStatusInitializing then State.Starting
         else State.Running), none) := by
    simp only [Driver.GetState, hcfg, hlookup]
    split_ifs <;> rfl
  refine ⟨h1, ?_⟩
  intro d2 st e h2
  rw [h1] at h2
  obtain ⟨-, hst, -⟩ := by simpa using h2
  subst hst
  split_ifs <;> simp

/-- C2 witness: a lookup returning the provider status "starting" maps
to Running (the empty case falls through), not Starting and not Error. -/
theorem getState_status_table_witness :
    Driver.GetState
        { stubProvider with
            serverGetByID := fun _ =>
              (some { sampleServer with Status := ServerStatusStarting }, none) }
        sampleDriver = .ok (sampleDriver, State.Running, none) :=
  (getState_status_table
    { stubProvider with
        serverGetByID := fun _ =>
          (some { sampleServer with Status := ServerStatusStarting }, none) }
    sampleDriver cfgT { sampleServer with Status := ServerStatusStarting }
    rfl rfl).1

/-- C5: Remove is idempotent — a not_found lookup error returns nil; any
other lookup error is returned to the caller; a successful lookup issues
the delete call and returns exactly its error, with no action wait. -/
theorem remove_idempotent (p : Provider) (d : Driver)
    (cfg : HcloudClientCfg) (hcfg : d.hcloud = some cfg) :
    (∀ sv e, p.serverGetByID d.serverId = (sv, some e) →
        hcloudIsError e ErrorCodeNotFound = true →
        Driver.Remove p d = .ok (d, none)) ∧
    (∀ sv e, p.serverGetByID d.serverId = (sv, some e) →
        hcloudIsError e ErrorCodeNotFound = false →
        Driver.Remove p d = .ok (d, some e)) ∧
    (∀ s, p.serverGetByID d.serverId = (some s, none) →
        Driver.Remove p d = .ok (d, p.serverDelete s)) := by
  refine ⟨?_, ?_, ?_⟩
  · intro sv e hl hnf
    simp only [Driver.Remove, hcfg, hl, hnf, if_true]
  · intro sv e hl hnf
    simp only [Driver.Remove, hcfg, hl, hnf]
    simp
  · intro s hl
    simp only [Driver.Remove, hcfg, hl]

/-- C5 witness: the three Remove cases at concrete providers — a
not_found lookup yields nil, another lookup error is propagated, and a
successful lookup yields the delete call's (nil) error. -/
theorem remove_idempotent_witness :
    Driver.Remove
        { stubProvider with serverGetByID := fun _ =>
            (none, some (.hcloudError ErrorCodeNotFound "server not found")) }
        sampleDriver = .ok (sampleDriver, none)
    ∧ Driver.Remove stubProvider sampleDriver = .ok (sampleDriver, some errBoom)
    ∧ Driver.Remove
        { stubProvider with
            serverGetByID := fun _ => (some sampleServer, none),
            serverDelete := fun _ => none }
        sampleDriver = .ok (sampleDriver, none) :=
  ⟨(remove_idempotent
      { stubProvider with serverGetByID := fun _ =>
          (none, some (.hcloudError ErrorCodeNotFound "server not found")) }
      sampleDriver cfgT rfl).1 none
      (.hcloudError ErrorCodeNotFound "server not found") rfl rfl,
   (remove_idempotent stubProvider sampleDriver cfgT rfl).2.1 none errBoom rfl rfl,
   (remove_idempotent
      { stubProvider with
          serverGetByID := fun _ => (some sampleServer, none),
          serverDelete := fun _ => none }
      sampleDriver cfgT rfl).2.2 sampleServer rfl⟩

/-- C1: once the server-creation call has produced a response carrying
a server and an action, Create binds serverId to that server's ID and
IPAddress to its public IPv4 string and returns nil — with no
hypothesis on the creation call's error component or on the outcome of
waiting on the action (a failed wait is not propagated). -/
theorem create_binds_identity_unconditionally (p : Provider) (d : Driver)
    (cfg : HcloudClientCfg) (opts : ServerCreateOpts)
    (resp : ServerCreateResult) (cerr : Option GoError) (a : Action) (s : Server)
    (hcfg : d.hcloud = some cfg)
    (hopts : Driver.createOpts p d = .ok opts)
    (hcall : p.serverCreate opts = (resp, cerr))
    (haction : resp.Action = some a)
    (hserver : resp.Server = some s) :
    Driver.Create p d =
      .ok ({ d with serverId := s.ID,
                    base := { d.base with IPAddress := s.PublicNet.IPv4.IP } },
           none) := by
  simp only [Driver.Create, hcfg, hopts, hcall, Driver.waitOnAction, haction, hserver]

/-- A provider on which the creation call succeeds (server 7 at
198.51.100.7, with an action) but waiting on every action fails. -/
def providerWaitFails : Provider :=
  { stubProvider with
      serverTypeGet := fun _ => (some { Name := "cx11" }, none),
      imageGet := fun _ => (some { Name := "ubuntu-18.04" }, none),
      serverCreate := fun _ =>
        ({ Server := some { ID := 7, Status := ServerStatusInitializing,
                            PublicNet := { IPv4 := { IP := "198.51.100.7" } } },
           Action := some { Command := "create_server" } }, none) }

/-- C1 witness: on providerWaitFails the wait on the creation action
reports an error, yet Create still binds serverId := 7 and
IPAddress := "198.51.100.7" and returns nil. -/
theorem create_binds_identity_unconditionally_witness :
    Driver.Create providerWaitFails sampleDriver =
      .ok ({ sampleDriver with
               serverId := 7,
               base := { sampleDriver.base with IPAddress := "198.51.100.7" } },
           none) :=
  create_binds_identity_unconditionally providerWaitFails sampleDriver cfgT
    { Name := "m", ServerType := some { Name := "cx11" },
      Image := some { Name := "ubuntu-18.04" } }
    { Server := some { ID := 7, Status := ServerStatusInitializing,
                       PublicNet := { IPv4 := { IP := "198.51.100.7" } } },
      Action := some { Command := "create_server" } }
    none { Command := "create_server" }
    { ID := 7, Status := ServerStatusInitializing,
      PublicNet := { IPv4 := { IP := "198.51.100.7" } } }
    rfl rfl rfl rfl rfl

/-- A provider on which the server-creation call itself fails,
returning the zero-valued result (nil server, nil action) alongside
the error, while the resource lookups succeed. -/
def providerCreateFails : Provider :=
  { stubProvider with
      serverTypeGet := fun _ => (some { Name := "cx11" }, none),
      imageGet := fun _ => (some { Name := "ubuntu-18.04" }, none) }

/-- C3: when the server-creation call fails, Create does not return
that error — the error assigned at the creation call is never
examined, the zero-valued response is used anyway, and dereferencing
its nil Action crashes (a nil-pointer panic), so the failure is never
surfaced as the call's error return. -/
theorem create_ignores_creation_call_error :
    Driver.Create providerCreateFails sampleDriver = .crash := rfl

/-- The flag set of the example scenario: token "T", the default image
and server type, no location or datacenter. -/
def flagsOK : DriverOptions :=
  { string := fun name =>
      if name = "hcloud-token" then "T"
      else if name = "hcloud-image" then "ubuntu-18.04"
      else if name = "hcloud-type" then "cx11"
      else "" }

/-- A configured driver on which create has never been run: its
serverId still holds the Go zero value 0. -/
def configuredDriver : Driver :=
  (Driver.SetConfigFromFlags (NewDriver "m" "s") flagsOK).1

/-- A provider that happily answers a lookup for server id 0 with a
live server and completes the power-on action. -/
def providerAnswersZero : Provider :=
  { stubProvider with
      serverGetByID := fun _ => (some sampleServer, none),
      serverPoweron := fun _ => (some { Command := "start_server" }, none),
      watchProgress := fun _ => none }

/-- C4: contrary to the required defensive check, a driver on which
create has never succeeded (serverId still the zero value 0) does not
fail Start locally — the lookup is issued with id 0 and, when the
provider answers it, the whole power-on sequence proceeds and Start
returns nil. -/
theorem start_before_create_issues_lookup :
    configuredDriver.serverId = 0 ∧
    Driver.Start providerAnswersZero configuredDriver =
      .ok (configuredDriver, none) := ⟨rfl, rfl⟩

/-- C6: when a datacenter and a location are configured, the
datacenter and location lookups inside Create are issued with d.Image
as the lookup key — not d.Datacenter / d.Location — and the resolved
values are placed into the ServerCreateOpts. -/
theorem createOpts_uses_image_key (p : Provider) (d : Driver)
    (st : ServerType) (im : Image) (dc : Datacenter) (loc : Location)
    (hdc : d.Datacenter ≠ "") (hloc : d.Location ≠ "")
    (hst : p.serverTypeGet d.ServerType = (some st, none))
    (him : p.imageGet d.Image = (some im, none))
    (hdcq : p.datacenterGet d.Image = (some dc, none))
    (hlocq : p.locationGet d.Image = (some loc, none)) :
    Driver.createOpts p d =
      .ok { Name := d.base.MachineName, ServerType := some st, Image := some im,
            Datacenter := some dc, Location := some loc } := by
  simp only [Driver.createOpts, hst, him, bind, Except.bind, if_pos hdc,
    if_pos hloc, hdcq, hlocq, pure, Except.pure]

/-- A provider that resolves the datacenter and location only when
queried with the image identifier, and fails for any other key
(in particular for the configured datacenter and location names). -/
def providerKeyedByImage : Provider :=
  { stubProvider with
      serverTypeGet := fun _ => (some { Name := "cx11" }, none),
      imageGet := fun key =>
        if key = "ubuntu-18.04" then (some { Name := "ubuntu-18.04" }, none)
        else (none, some errBoom),
      datacenterGet := fun key =>
        if key = "ubuntu-18.04" then (some { Name := "fsn1-dc8" }, none)
        else (none, some errBoom),
      locationGet := fun key =>
        if key = "ubuntu-18.04" then (some { Name := "fsn1" }, none)
        else (none, some errBoom) }

/-- The sample driver with a datacenter and a location configured. -/
def driverWithPlacement : Driver :=
  { sampleDriver with Datacenter := "fsn1-dc8", Location := "fsn1" }

/-- C6 witness: on a provider that errors for every lookup key except
the image identifier, resolution still succeeds — demonstrating that
the datacenter and location lookups are keyed by the image. -/
theorem createOpts_uses_image_key_witness :
    Driver.createOpts providerKeyedByImage driverWithPlacement =
      .ok { Name := "m", ServerType := some { Name := "cx11" },
            Image := some { Name := "ubuntu-18.04" },
            Datacenter := some { Name := "fsn1-dc8" },
            Location := some { Name := "fsn1" } } :=
  createOpts_uses_image_key providerKeyedByImage driverWithPlacement
    { Name := "cx11" } { Name := "ubuntu-18.04" } { Name := "fsn1-dc8" }
    { Name := "fsn1" } (by decide) (by decide) rfl rfl rfl rfl

/-- C7: SetConfigFromFlags returns an error and leaves the client
handle unconstructed whenever the token, image or server-type flag is
empty; with all three non-empty it binds image, server type,
datacenter and location and stores the freshly constructed
authenticated client, returning nil. -/
theorem setConfigFromFlags_validates (d : Driver) (flags : DriverOptions) :
    ((flags.string "hcloud-token" = "" ∨ flags.string "hcloud-image" = "" ∨
        flags.string "hcloud-type" = "") →
      (Driver.SetConfigFromFlags d flags).2.isSome = true ∧
      (Driver.SetConfigFromFlags d flags).1.hcloud = d.hcloud) ∧
    (flags.string "hcloud-token" ≠ "" → flags.string "hcloud-image" ≠ "" →
      flags.string "hcloud-type" ≠ "" →
      Driver.SetConfigFromFlags d flags =
        ({ d with Image := flags.string "hcloud-image",
                  ServerType := flags.string "hcloud-type",
                  Datacenter := flags.string "hcloud-datacenter",
                  Location := flags.string "hcloud-location",
                  hcloud := some (hcloudNewClient (flags.string "hcloud-token")) },
         none)) := by
  constructor
  · intro h
    by_cases h1 : flags.string "hcloud-token" = ""
    · simp only [Driver.SetConfigFromFlags, if_pos h1]
      exact ⟨by simp, by simp⟩
    · by_cases h2 : flags.string "hcloud-image" = ""
      · simp only [Driver.SetConfigFromFlags, if_neg h1, if_pos h2]
        exact ⟨by simp, by simp⟩
      · have h3 : flags.string "hcloud-type" = "" := by tauto
        simp only [Driver.SetConfigFromFlags, if_neg h1, if_neg h2, if_pos h3]
        exact ⟨by simp, by simp⟩
  · intro h1 h2 h3
    simp only [Driver.SetConfigFromFlags, if_neg h1, if_neg h2, if_neg h3]

/-- A flag set whose every value is the empty string. -/
def flagsEmpty : DriverOptions := { string := fun _ => "" }

/-- C7 witness: on all-empty flags configuration fails with an error
and constructs no client; on the example flag set (token "T", image
"ubuntu-18.04", type "cx11") it binds the parameters, stores the
client, and returns nil. -/
theorem setConfigFromFlags_validates_witness :
    ((Driver.SetConfigFromFlags (NewDriver "m" "s") flagsEmpty).2.isSome = true ∧
     (Driver.SetConfigFromFlags (NewDriver "m" "s") flagsEmpty).1.hcloud = none) ∧
    Driver.SetConfigFromFlags (NewDriver "m" "s") flagsOK =
      ({ base := { MachineName := "m", StorePath := "s", IPAddress := "" },
         serverId := 0, Image := "ubuntu-18.04", Location := "",
         Datacenter := "", ServerType := "cx11",
         hcloud := some (hcloudNewClient "T") }, none) :=
  ⟨(setConfigFromFlags_validates (NewDriver "m" "s") flagsEmpty).1 (Or.inl rfl),
   (setConfigFromFlags_validates (NewDriver "m" "s") flagsOK).2
     (by decide) (by decide) (by decide)⟩

/-- C8: Start, Stop, Restart and Kill each fetch the server by the
stored id and issue Poweron, Shutdown, Reboot and Poweroff
respectively; a lookup error or a submission error is returned
immediately with no wait, and on a successful submission the
operation's result is exactly the outcome of waiting on the returned
action. -/
theorem action_ops_protocol (p : Provider) (d : Driver)
    (cfg : HcloudClientCfg) (hcfg : d.hcloud = some cfg) :
    (∀ sv e, p.serverGetByID d.serverId = (sv, some e) →
        Driver.Start p d = .ok (d, some e) ∧ Driver.Stop p d = .ok (d, some e) ∧
        Driver.Restart p d = .ok (d, some e) ∧ Driver.Kill p d = .ok (d, some e)) ∧
    (∀ s, p.serverGetByID d.serverId = (some s, none) →
      ((∀ a e, p.serverPoweron s = (a, some e) → Driver.Start p d = .ok (d, some e)) ∧
       (∀ a, p.serverPoweron s = (some a, none) →
          Driver.Start p d = .ok (d, p.watchProgress a))) ∧
      ((∀ a e, p.serverShutdown s = (a, some e) → Driver.Stop p d = .ok (d, some e)) ∧
       (∀ a, p.serverShutdown s = (some a, none) →
          Driver.Stop p d = .ok (d, p.watchProgress a))) ∧
      ((∀ a e, p.serverReboot s = (a, some e) → Driver.Restart p d = .ok (d, some e)) ∧
       (∀ a, p.serverReboot s = (some a, none) →
          Driver.Restart p d = .ok (d, p.watchProgress a))) ∧
      ((∀ a e, p.serverPoweroff s = (a, some e) → Driver.Kill p d = .ok (d, some e)) ∧
       (∀ a, p.serverPoweroff s = (some a, none) →
          Driver.Kill p d = .ok (d, p.watchProgress a)))) := by
  constructor
  · intro sv e hl
    exact ⟨by simp only [Driver.Start, hcfg, hl],
           by simp only [Driver.Stop, hcfg, hl],
           by simp only [Driver.Restart, hcfg, hl],
           by simp only [Driver.Kill, hcfg, hl]⟩
  · intro s hl
    refine ⟨⟨?_, ?_⟩, ⟨?_, ?_⟩, ⟨?_, ?_⟩, ⟨?_, ?_⟩⟩
    · intro a e hs
      simp only [Driver.Start, hcfg, hl, hs]
    · intro a hs
      simp only [Driver.Start, hcfg, hl, hs, Driver.waitOnAction]
    · intro a e hs
      simp only [Driver.Stop, hcfg, hl, hs]
    · intro a hs
      simp only [Driver.Stop, hcfg, hl, hs, Driver.waitOnAction]
    · intro a e hs
      simp only [Driver.Restart, hcfg, hl, hs]
    · intro a hs
      simp only [Driver.Restart, hcfg, hl, hs, Driver.waitOnAction]
    · intro a e hs
      simp only [Driver.Kill, hcfg, hl, hs]
    · intro a hs
      simp only [Driver.Kill, hcfg, hl, hs, Driver.waitOnAction]

/-- A provider on which the lookup and all four action submissions
succeed and every action wait completes without error. -/
def providerActionsOK : Provider :=
  { stubProvider with
      serverGetByID := fun _ => (some sampleServer, none),
      serverPoweron := fun _ => (some { Command := "start_server" }, none),
      serverShutdown := fun _ => (some { Command := "shutdown_server" }, none),
      serverReboot := fun _ => (some { Command := "reboot_server" }, none),
      serverPoweroff := fun _ => (some { Command := "stop_server" }, none),
      watchProgress := fun _ => none }

/-- C8 witness: on providerActionsOK all four operations return the
(nil) outcome of waiting on their submitted action. -/
theorem action_ops_protocol_witness :
    Driver.Start providerActionsOK sampleDriver = .ok (sampleDriver, none) ∧
    Driver.Stop providerActionsOK sampleDriver = .ok (sampleDriver, none) ∧
    Driver.Restart providerActionsOK sampleDriver = .ok (sampleDriver, none) ∧
    Driver.Kill providerActionsOK sampleDriver = .ok (sampleDriver, none) :=
  ⟨((action_ops_protocol providerActionsOK sampleDriver cfgT rfl).2
      sampleServer rfl).1.2 { Command := "start_server" } rfl,
   ((action_ops_protocol providerActionsOK sampleDriver cfgT rfl).2
      sampleServer rfl).2.1.2 { Command := "shutdown_server" } rfl,
   ((action_ops_protocol providerActionsOK sampleDriver cfgT rfl).2
      sampleServer rfl).2.2.1.2 { Command := "reboot_server" } rfl,
   ((action_ops_protocol providerActionsOK sampleDriver cfgT rfl).2
      sampleServer rfl).2.2.2.2 { Command := "stop_server" } rfl⟩

/-- A provider reporting the server's status as "off". -/
def providerOff : Provider :=
  { stubProvider with
      serverGetByID := fun _ =>
        (some { sampleServer with Status := ServerStatusOff }, none) }

/-- C9 counterexample: with the abstract state Stopped (not Running),
GetSSHHostname still returns the cached address with a nil error — it
applies no must-be-running guard — while GetURL on the same driver and
provider does fail with the guard's error. -/
theorem getSSHHostname_unguarded_cex :
    Driver.GetState providerOff sampleDriver =
      .ok (sampleDriver, State.Stopped, none) ∧
    Driver.GetSSHHostname sampleDriver = ("203.0.113.9", none) ∧
    Driver.GetURL providerOff sampleDriver =
      .ok (sampleDriver, "", some errHostIsNotRunning) :=
  ⟨rfl, rfl, rfl⟩

/-- C9 (amended): GetURL applies the must-be-running guard before
constructing any address-bearing value — failing whenever the state is
not Running and returning the tcp URL built from the cached network
identity when it is — whereas GetSSHHostname applies no guard at all:
it returns the cached network identity whenever one is set, regardless
of state, and fails only when the identity is unset. -/
theorem address_queries_guard (p : Provider) (d : Driver) :
    (∀ d2 st, Driver.GetState p d = .ok (d2, st, none) → st ≠ State.Running →
        Driver.GetURL p d = .ok (d, "", some errHostIsNotRunning)) ∧
    (∀ d2, Driver.GetState p d = .ok (d2, State.Running, none) →
        d.base.IPAddress ≠ "" →
        Driver.GetURL p d =
          .ok (d, "tcp://" ++ netJoinHostPort d.base.IPAddress "2376", none)) ∧
    (d.base.IPAddress ≠ "" → Driver.GetSSHHostname d = (d.base.IPAddress, none)) ∧
    (d.base.IPAddress = "" → (Driver.GetSSHHostname d).2.isSome = true) := by
  refine ⟨?_, ?_, ?_, ?_⟩
  · intro d2 st h hne
    simp only [Driver.GetURL, drivers.MustBeRunning, h, if_neg hne]
  · intro d2 h hip
    simp only [Driver.GetURL, drivers.MustBeRunning, h, Driver.GetIP, if_neg hip]
    simp
  · intro hip
    simp only [Driver.GetSSHHostname, Driver.GetIP, if_neg hip]
  · intro hip
    simp only [Driver.GetSSHHostname, Driver.GetIP, if_pos hip, Option.isSome]

/-- A provider reporting the server's status as "running". -/
def providerRunning : Provider :=
  { stubProvider with
      serverGetByID := fun _ => (some sampleServer, none) }

/-- C9 (amended) witness: with the state Running, GetURL returns the
tcp URL of the cached address; GetSSHHostname returns the cached
address; on a fresh driver with no address it fails. -/
theorem address_queries_guard_witness :
    Driver.GetURL providerRunning sampleDriver =
      .ok (sampleDriver, "tcp://203.0.113.9:2376", none) ∧
    Driver.GetSSHHostname sampleDriver = ("203.0.113.9", none) ∧
    (Driver.GetSSHHostname (NewDriver "m" "s")).2.isSome = true :=
  ⟨(address_queries_guard providerRunning sampleDriver).2.1 sampleDriver
      rfl (by decide),
   (address_queries_guard providerRunning sampleDriver).2.2.1 (by decide),
   (address_queries_guard providerRunning (NewDriver "m" "s")).2.2.2 rfl⟩

/-- C10: no operation other than Create changes the driver's remote
identity (serverId) or network identity (IPAddress) — Start, Stop,
Restart, Kill, Remove, GetState, GetURL and SetConfigFromFlags leave
both fields exactly as they were, whether they return an error or not —
and a Create that returns nil sets both together, from one and the
same server record of the creation response. -/
theorem only_create_binds_identity (p : Provider) (d : Driver)
    (flags : DriverOptions) :
    (∀ d2 r, Driver.Start p d = .ok (d2, r) →
        d2.serverId = d.serverId ∧ d2.base.IPAddress = d.base.IPAddress) ∧
    (∀ d2 r, Driver.Stop p d = .ok (d2, r) →
        d2.serverId = d.serverId ∧ d2.base.IPAddress = d.base.IPAddress) ∧
    (∀ d2 r, Driver.Restart p d = .ok (d2, r) →
        d2.serverId = d.serverId ∧ d2.base.IPAddress = d.base.IPAddress) ∧
    (∀ d2 r, Driver.Kill p d = .ok (d2, r) →
        d2.serverId = d.serverId ∧ d2.base.IPAddress = d.base.IPAddress) ∧
    (∀ d2 r, Driver.Remove p d = .ok (d2, r) →
        d2.serverId = d.serverId ∧ d2.base.IPAddress = d.base.IPAddress) ∧
    (∀ d2 st e, Driver.GetState p d = .ok (d2, st, e) → d2 = d) ∧
    (∀ d2 u e, Driver.GetURL p d = .ok (d2, u, e) → d2 = d) ∧
    (∀ d2 r, Driver.SetConfigFromFlags d flags = (d2, r) →
        d2.serverId = d.serverId ∧ d2.base.IPAddress = d.base.IPAddress) ∧
    (∀ d2, Driver.Create p d = .ok (d2, none) →
        ∃ s : Server,
          d2 = { d with serverId := s.ID,
                        base := { d.base with IPAddress := s.PublicNet.IPv4.IP } }) := by
  refine ⟨?_, ?_, ?_, ?_, ?_, ?_, ?_, ?_, ?_⟩
  · intro d2 r h
    simp only [Driver.Start, Driver.waitOnAction] at h
    repeat' split at h
    all_goals simp_all
  · intro d2 r h
    simp only [Driver.Stop, Driver.waitOnAction] at h
    repeat' split at h
    all_goals simp_all
  · intro d2 r h
    simp only [Driver.Restart, Driver.waitOnAction] at h
    repeat' split at h
    all_goals simp_all
  · intro d2 r h
    simp only [Driver.Kill, Driver.waitOnAction] at h
    repeat' split at h
    all_goals simp_all
  · intro d2 r h
    simp only [Driver.Remove] at h
    repeat' split at h
    all_goals simp_all
  · intro d2 st e h
    simp only [Driver.GetState] at h
    repeat' split at h
    all_goals simp_all
  · intro d2 u e h
    simp only [Driver.GetURL] at h
    repeat' split at h
    all_goals simp_all
  · intro d2 r h
    simp only [Driver.SetConfigFromFlags] at h
    repeat' split at h
    all_goals injection h with h1 h2
    all_goals subst h1
    all_goals exact ⟨rfl, rfl⟩
  · intro d2 h
    simp only [Driver.Create, Driver.waitOnAction] at h
    repeat' split at h
    all_goals simp_all
    rename_i s heq
    exact ⟨s, h.symm⟩

/-- C10 witness: on a concrete provider and the post-create sample
driver (serverId 42, address 203.0.113.9), a run of Remove leaves both
identity fields at their old values. -/
theorem only_create_binds_identity_witness :
    ((42 : Int) = 42 ∧ "203.0.113.9" = "203.0.113.9") :=
  (only_create_binds_identity
      { stubProvider with
          serverGetByID := fun _ => (some sampleServer, none),
          serverDelete := fun _ => none }
      sampleDriver flagsOK).2.2.2.2.1 sampleDriver none rfl

end Hcloud
